import Mathlib

/-!
Verification of the workout planner's deterministic Plan Composer
(`create_workout_plan` in `workout_planner_tool.py`).

The Python function accumulates a result string by repeated `+=` of text
chunks.  We embed it as the list of those chunks (`plan_chunks`) together
with a fold-append renderer (`render_chunks`), so that the rendered string
is exactly the Python result while structural facts (day sections,
exercise lines, trailing advisory) are stated about the chunk list.

`random.sample(pool, k)` is modelled by universally quantifying over an
index selection `sel : List Nat` satisfying `IsSample pool sel`: `sel` has
length `min 5 pool.length`, consists of pairwise-distinct indices, and
every index is in range.  This is exactly the set of possible outcomes of
Python's sampling without replacement (in some order).
-/

namespace WorkoutPlanner

/-- Catalog `exercises[fitness_level][equipment]` from the source
(lines 74-90).  A lookup outside the keys (impossible after validation)
gives `[]`. -/
def exercises : String → String → List String
  | "beginner", "full gym" => ["Leg press", "Chest press machine", "Treadmill", "Seated cable rows", "Machine shoulder press"]
  | "beginner", "basic dumbbells" => ["Dumbbell squats", "Dumbbell bench press", "Dumbbell rows", "Dumbbell lunges", "Dumbbell curls"]
  | "beginner", "no equipment" => ["Bodyweight squats", "Push-ups", "Walking lunges", "Plank", "Mountain climbers"]
  | "intermediate", "full gym" => ["Barbell squats", "Bench press", "Lat pulldowns", "Romanian deadlifts", "Cable face pulls"]
  | "intermediate", "basic dumbbells" => ["Dumbbell lunges", "Dumbbell overhead press", "Dumbbell deadlifts", "Dumbbell flyes", "Dumbbell renegade rows"]
  | "intermediate", "no equipment" => ["Jump squats", "Diamond push-ups", "Burpees", "Superman holds", "Mountain climbers"]
  | "advanced", "full gym" => ["Deadlifts", "Weighted pull-ups", "Barbell rows", "Front squats", "Overhead press"]
  | "advanced", "basic dumbbells" => ["Dumbbell clean and press", "Renegade rows", "Bulgarian split squats", "Single-leg Romanian deadlifts", "Dumbbell thrusters"]
  | "advanced", "no equipment" => ["Pistol squats", "One-arm push-ups", "Muscle-ups", "Plyometric lunges", "L-sit holds"]
  | _, _ => []

/-- Catalog `body_weight_exercises[fitness_level]` from the source
(lines 92-96). -/
def body_weight_exercises : String → List String
  | "beginner" => ["Bodyweight squats", "Push-ups", "Lunges", "Plank", "Mountain climbers", "Bird dogs", "Glute bridges"]
  | "intermediate" => ["Jump squats", "Diamond push-ups", "Burpees", "Spider-man push-ups", "V-ups", "Box jumps", "Flutter kicks"]
  | "advanced" => ["Pistol squats", "One-arm push-ups", "Plyometric lunges", "Handstand push-ups", "L-sit holds", "Muscle-ups", "Planche progressions"]
  | _ => []

/-- Keys of the `exercises` dict, in insertion order; the membership test
of source line 98 (`fitness_level not in exercises`) is membership here. -/
def exercise_levels : List String := ["beginner", "intermediate", "advanced"]

/-- Literal list of source line 104. -/
def equipment_options : List String := ["full gym", "basic dumbbells", "no equipment"]

/-- Message of source line 99. -/
def invalid_fitness_msg : String := "Invalid fitness level. Please choose beginner, intermediate, or advanced."

/-- Message of source line 102. -/
def invalid_days_msg : String := "Invalid number of days. Please choose between 1 and 7."

/-- Message of source line 105. -/
def invalid_equipment_msg : String := "Invalid equipment option. Please choose full gym, basic dumbbells, or no equipment."

/-- Python's substring test `sub in s` on strings. -/
def strContains (s sub : String) : Bool := decide (sub.data <:+: s.data)

/-- Python's `s.lower()`: lower-case every character. -/
def str_lower (s : String) : String := String.mk (s.data.map Char.toLower)

/-- Exercise pool construction of source lines 110-123: the cumulative
tier concatenation, over the body-weight catalog when `body_weight_only`
and over the `equipment` column otherwise.  The trailing `else` branches
correspond to the source's `else:  # advanced`. -/
def exercise_pool (body_weight_only : Bool) (fitness_level equipment : String) : List String :=
  if body_weight_only then
    if fitness_level = "beginner" then
      body_weight_exercises "beginner"
    else if fitness_level = "intermediate" then
      body_weight_exercises "beginner" ++ body_weight_exercises "intermediate"
    else
      body_weight_exercises "beginner" ++ body_weight_exercises "intermediate" ++ body_weight_exercises "advanced"
  else
    if fitness_level = "beginner" then
      exercises "beginner" equipment
    else if fitness_level = "intermediate" then
      exercises "beginner" equipment ++ exercises "intermediate" equipment
    else
      exercises "beginner" equipment ++ exercises "intermediate" equipment ++ exercises "advanced" equipment

/-- Rep-range choice of source line 129, a function of the goal alone. -/
def reps_for (goal : String) : String :=
  if strContains (str_lower goal) "weight" || strContains (str_lower goal) "muscle" then "10-15 reps" else "30-60 seconds"

/-- Chunk appended for one drawn exercise (source line 130). -/
def exercise_chunk (goal exercise : String) : String :=
  "- " ++ exercise ++ ": 3 sets of " ++ reps_for goal ++ "\n"

/-- Cool-down chunk appended after each day (source line 131). -/
def cool_down_chunk : String := "- Cool-down: 5-10 minutes of light stretching\n\n"

/-- Day header chunk (source line 126). -/
def day_header_chunk (day : Nat) : String := "Day " ++ toString day ++ ":\n"

/-- Value of `daily_exercises` (source line 127) for the index selection
`sel` produced by the random sampler: element `i` of the pool for each
chosen index, in draw order. -/
def daily_exercises (pool : List String) (sel : List Nat) : List String :=
  sel.map (fun i => pool.getD i "")

/-- Chunks appended by one iteration of the day loop (source lines
125-131). -/
def day_chunks (goal : String) (pool : List String) (sel : List Nat) (day : Nat) : List String :=
  day_header_chunk day :: (daily_exercises pool sel).map (exercise_chunk goal) ++ [cool_down_chunk]

/-- Header chunks of source lines 107-108. -/
def header_chunks (fitness_level goal : String) (days_per_week : Int) (equipment : String) (body_weight_only : Bool) : List String :=
  ["Workout Plan (" ++ fitness_level ++ " level, " ++ goal ++ " focus, " ++ toString days_per_week ++ " days/week, ",
   (if body_weight_only then "body weight only" else equipment) ++ "):\n\n"]

/-- Advisory chunk of source line 134. -/
def advisory_chunk (d : Int) : String :=
  "Aim to complete each workout session in about " ++ toString d ++ " minutes.\n"

/-- Chunk appended by source lines 133-134.  Python's `if duration:` is
falsy for both `None` and `0`, so a zero duration appends nothing. -/
def duration_chunks : Option Int → List String
  | none => []
  | some d => if d = 0 then [] else [advisory_chunk d]

/-- Day indices `range(1, days_per_week + 1)` of source line 125. -/
def days_list (days_per_week : Int) : List Nat :=
  (List.range days_per_week.toNat).map (fun i => i + 1)

/-- Every chunk appended to `workout_plan` on the success path, in
append order; `sample day` is the index selection the random sampler
produced for that day. -/
def plan_chunks (fitness_level goal : String) (days_per_week : Int) (equipment : String) (body_weight_only : Bool) (duration : Option Int) (sample : Nat → List Nat) : List String :=
  header_chunks fitness_level goal days_per_week equipment body_weight_only ++
    ((days_list days_per_week).map (fun day =>
      day_chunks goal (exercise_pool body_weight_only fitness_level equipment) (sample day) day)).flatten ++
    duration_chunks duration

/-- String accumulation by repeated `+=`, starting from the empty
string. -/
def render_chunks (chunks : List String) : String :=
  chunks.foldl (fun acc c => acc ++ c) ""

/-- Whole function `create_workout_plan` (source lines 66-136): the three
fail-fast validations in source order, then the rendered plan. -/
def create_workout_plan (fitness_level goal : String) (days_per_week : Int) (equipment : String) (body_weight_only : Bool) (duration : Option Int) (sample : Nat → List Nat) : String :=
  if fitness_level ∉ exercise_levels then
    invalid_fitness_msg
  else if days_per_week < 1 ∨ days_per_week > 7 then
    invalid_days_msg
  else if equipment ∉ equipment_options then
    invalid_equipment_msg
  else
    render_chunks (plan_chunks fitness_level goal days_per_week equipment body_weight_only duration sample)

/-- Possible outcomes of `random.sample(pool, min(5, len(pool)))`
(source line 127), as the list of drawn indices: correct length,
pairwise-distinct positions (sampling without replacement), all in
range. -/
def IsSample (pool : List String) (sel : List Nat) : Prop :=
  sel.length = min 5 pool.length ∧ sel.Nodup ∧ ∀ i ∈ sel, i < pool.length

instance instDecidableIsSample (pool : List String) (sel : List Nat) : Decidable (IsSample pool sel) :=
  decidable_of_iff (sel.length = min 5 pool.length ∧ sel.Nodup ∧ ∀ i ∈ sel, i < pool.length) Iff.rfl

/-- Position of a tier in the beginner-to-advanced order (spec wording;
used only to state the refinement `pool_spec`). -/
def level_index (fitness_level : String) : Nat :=
  if fitness_level = "beginner" then 0 else if fitness_level = "intermediate" then 1 else 2

/-- Catalog entries of one tier, as the spec words it: the body-weight
catalog when `body_weight_only`, else the requested equipment's column. -/
def tier_catalog (body_weight_only : Bool) (equipment tier : String) : List String :=
  if body_weight_only then body_weight_exercises tier else exercises tier equipment

/-- Pool as the spec words it: concatenation of catalog entries for all
tiers from beginner up to and including the requested tier, in tier
order, preserving within-tier order, no deduplication. -/
def pool_spec (body_weight_only : Bool) (fitness_level equipment : String) : List String :=
  ((exercise_levels.take (level_index fitness_level + 1)).map (tier_catalog body_weight_only equipment)).flatten

/-- Chunk classifier: does this chunk open a day section? -/
def chunk_is_day_header (c : String) : Bool := decide ("Day ".data <+: c.data)

/-- Chunk classifier: is this chunk the trailing duration advisory? -/
def chunk_is_advisory (c : String) : Bool :=
  decide ("Aim to complete each workout session in about ".data <+: c.data)

/-! Helper lemmas about chunk heads and classifiers. -/

lemma string_head_append (s t : String) {a : Char} (h : s.data.head? = some a) :
    (s ++ t).data.head? = some a := by
  rw [String.data_append]
  cases hs : s.data with
  | nil => rw [hs] at h; simp at h
  | cons b l => rw [hs] at h; simpa using h

lemma not_prefix_of_head_ne {t l : List Char} {a b : Char} (h : l.head? = some b)
    (hab : b ≠ a) : ¬ (a :: t) <+: l := by
  intro hpre
  obtain ⟨r, hr⟩ := hpre
  rw [← hr, List.cons_append] at h
  simp at h
  exact hab h.symm

lemma head_exercise_chunk (goal ex : String) :
    (exercise_chunk goal ex).data.head? = some '-' := by
  unfold exercise_chunk
  apply string_head_append
  apply string_head_append
  apply string_head_append
  apply string_head_append
  decide

lemma head_cool_down : cool_down_chunk.data.head? = some '-' := by decide

lemma head_day_header (day : Nat) : (day_header_chunk day).data.head? = some 'D' := by
  unfold day_header_chunk
  apply string_head_append
  apply string_head_append
  decide

lemma head_advisory_chunk (d : Int) : (advisory_chunk d).data.head? = some 'A' := by
  unfold advisory_chunk
  apply string_head_append
  apply string_head_append
  decide

lemma head_header_one (fl goal : String) (d : Int) :
    ("Workout Plan (" ++ fl ++ " level, " ++ goal ++ " focus, " ++ toString d ++
      " days/week, ").data.head? = some 'W' := by
  apply string_head_append
  apply string_head_append
  apply string_head_append
  apply string_head_append
  apply string_head_append
  apply string_head_append
  decide

lemma chunk_is_day_header_eq_false {c : String} {a : Char} (h : c.data.head? = some a)
    (ha : a ≠ 'D') : chunk_is_day_header c = false := by
  unfold chunk_is_day_header
  rw [decide_eq_false_iff_not]
  rw [show ("Day " : String).data = 'D' :: ['a', 'y', ' '] from rfl]
  exact not_prefix_of_head_ne h ha

lemma chunk_is_advisory_eq_false {c : String} {a : Char} (h : c.data.head? = some a)
    (ha : a ≠ 'A') : chunk_is_advisory c = false := by
  unfold chunk_is_advisory
  rw [decide_eq_false_iff_not]
  rw [show ("Aim to complete each workout session in about " : String).data =
    'A' :: "im to complete each workout session in about ".data from rfl]
  exact not_prefix_of_head_ne h ha

lemma chunk_is_day_header_eq_true (day : Nat) :
    chunk_is_day_header (day_header_chunk day) = true := by
  unfold chunk_is_day_header day_header_chunk
  rw [decide_eq_true_eq, String.data_append, String.data_append, List.append_assoc]
  exact List.prefix_append _ _

lemma chunk_is_advisory_eq_true (d : Int) :
    chunk_is_advisory (advisory_chunk d) = true := by
  unfold chunk_is_advisory advisory_chunk
  rw [decide_eq_true_eq, String.data_append, String.data_append, List.append_assoc]
  exact List.prefix_append _ _

lemma head_header_two (e : String) (he : e ∈ equipment_options) (b : Bool) :
    ∃ a, ((if b then "body weight only" else e) ++ "):\n\n").data.head? = some a ∧
      a ≠ 'D' ∧ a ≠ 'A' := by
  cases b with
  | false =>
    fin_cases he
    · refine ⟨'f', ?_, by decide, by decide⟩
      rw [if_neg (by decide)]
      exact string_head_append _ _ (by decide)
    · refine ⟨'b', ?_, by decide, by decide⟩
      rw [if_neg (by decide)]
      exact string_head_append _ _ (by decide)
    · refine ⟨'n', ?_, by decide, by decide⟩
      rw [if_neg (by decide)]
      exact string_head_append _ _ (by decide)
  | true =>
    refine ⟨'b', ?_, by decide, by decide⟩
    rw [if_pos rfl]
    exact string_head_append _ _ (by decide)

/-! Helper lemmas computing the day-header and advisory chunks of a plan. -/

lemma filter_flatten (p : String → Bool) (L : List (List String)) :
    L.flatten.filter p = (L.map (List.filter p)).flatten := by
  induction L with
  | nil => rfl
  | cons a t ih => simp [List.filter_append, ih]

lemma flatten_map_singleton {α β : Type} (l : List α) (f : α → β) :
    (l.map fun x => [f x]).flatten = l.map f := by
  induction l with
  | nil => rfl
  | cons a t ih => simp [ih]

lemma filter_day_header_day_chunks (goal : String) (pool : List String) (sel : List Nat)
    (day : Nat) :
    (day_chunks goal pool sel day).filter chunk_is_day_header = [day_header_chunk day] := by
  unfold day_chunks
  rw [List.filter_append, List.filter_cons_of_pos (chunk_is_day_header_eq_true day)]
  have h1 : ((daily_exercises pool sel).map (exercise_chunk goal)).filter chunk_is_day_header = [] := by
    apply List.filter_eq_nil_iff.mpr
    intro c hc
    obtain ⟨ex, _, rfl⟩ := List.mem_map.1 hc
    simp [chunk_is_day_header_eq_false (head_exercise_chunk goal ex) (by decide)]
  have h2 : ([cool_down_chunk] : List String).filter chunk_is_day_header = [] := by
    apply List.filter_eq_nil_iff.mpr
    intro c hc
    rw [List.mem_singleton.1 hc]
    simp [chunk_is_day_header_eq_false head_cool_down (by decide)]
  rw [h1, h2]
  simp

lemma filter_day_header_header (fl goal : String) (d : Int) (e : String)
    (he : e ∈ equipment_options) (b : Bool) :
    (header_chunks fl goal d e b).filter chunk_is_day_header = [] := by
  unfold header_chunks
  obtain ⟨a, ha, haD, _⟩ := head_header_two e he b
  have h1 := chunk_is_day_header_eq_false (head_header_one fl goal d) (by decide)
  have h2 := chunk_is_day_header_eq_false ha haD
  simp [List.filter_cons, h1, h2]

lemma filter_day_header_duration (dur : Option Int) :
    (duration_chunks dur).filter chunk_is_day_header = [] := by
  cases dur with
  | none => rfl
  | some d =>
    simp only [duration_chunks]
    by_cases hd : d = 0
    · simp [hd]
    · rw [if_neg hd]
      simp [List.filter_cons, chunk_is_day_header_eq_false (head_advisory_chunk d) (by decide)]

lemma filter_day_header_plan (fl goal : String) (d : Int) (e : String) (b : Bool)
    (dur : Option Int) (sample : Nat → List Nat) (he : e ∈ equipment_options) :
    (plan_chunks fl goal d e b dur sample).filter chunk_is_day_header =
      (days_list d).map day_header_chunk := by
  unfold plan_chunks
  rw [List.filter_append, List.filter_append,
    filter_day_header_header fl goal d e he b, filter_day_header_duration dur,
    filter_flatten, List.map_map]
  have hmap : ((days_list d).map
      (List.filter chunk_is_day_header ∘ fun day =>
        day_chunks goal (exercise_pool b fl e) (sample day) day)) =
      (days_list d).map fun day => [day_header_chunk day] := by
    apply List.map_congr_left
    intro day _
    exact filter_day_header_day_chunks goal _ (sample day) day
  rw [hmap, flatten_map_singleton]
  simp

lemma countP_advisory_day_chunks (goal : String) (pool : List String) (sel : List Nat)
    (day : Nat) : (day_chunks goal pool sel day).countP chunk_is_advisory = 0 := by
  unfold day_chunks
  apply List.countP_eq_zero.mpr
  intro c hc
  rcases List.mem_append.1 hc with hc | hc
  · rcases List.mem_cons.1 hc with hc | hc
    · rw [hc]
      simp [chunk_is_advisory_eq_false (head_day_header day) (by decide)]
    · obtain ⟨ex, _, rfl⟩ := List.mem_map.1 hc
      simp [chunk_is_advisory_eq_false (head_exercise_chunk goal ex) (by decide)]
  · rw [List.mem_singleton.1 hc]
    simp [chunk_is_advisory_eq_false head_cool_down (by decide)]

lemma countP_advisory_before_duration (fl goal : String) (d : Int) (e : String) (b : Bool)
    (sample : Nat → List Nat) (he : e ∈ equipment_options) :
    (header_chunks fl goal d e b ++
      ((days_list d).map fun day =>
        day_chunks goal (exercise_pool b fl e) (sample day) day).flatten).countP
      chunk_is_advisory = 0 := by
  rw [List.countP_append]
  have h1 : (header_chunks fl goal d e b).countP chunk_is_advisory = 0 := by
    apply List.countP_eq_zero.mpr
    intro c hc
    unfold header_chunks at hc
    obtain ⟨a, ha, _, haA⟩ := head_header_two e he b
    rcases List.mem_cons.1 hc with hc | hc
    · rw [hc]
      simp [chunk_is_advisory_eq_false (head_header_one fl goal d) (by decide)]
    · rw [List.mem_singleton.1 hc]
      simp [chunk_is_advisory_eq_false ha haA]
  have h2 : (((days_list d).map fun day =>
      day_chunks goal (exercise_pool b fl e) (sample day) day).flatten).countP
      chunk_is_advisory = 0 := by
    rw [List.countP_flatten]
    apply List.sum_eq_zero
    intro x hx
    obtain ⟨l, hl, rfl⟩ := List.mem_map.1 hx
    obtain ⟨day, _, rfl⟩ := List.mem_map.1 hl
    exact countP_advisory_day_chunks goal _ (sample day) day
  omega

lemma day_chunks_getLast (goal : String) (pool : List String) (sel : List Nat) (day : Nat) :
    (day_chunks goal pool sel day).getLast? = some cool_down_chunk := by
  unfold day_chunks
  exact List.getLast?_concat _

lemma exercise_chunk_eq_reps (goal ex : String) (h : reps_for goal = "10-15 reps") :
    exercise_chunk goal ex = "- " ++ ex ++ ": 3 sets of 10-15 reps\n" := by
  unfold exercise_chunk
  rw [h]
  have h2 : (": 3 sets of " ++ ("10-15 reps" ++ "\n") : String) = ": 3 sets of 10-15 reps\n" := by
    decide
  simp only [String.append_assoc]
  rw [h2]

lemma mem_pool_of_mem_daily {pool : List String} {sel : List Nat} (hs : IsSample pool sel) :
    ∀ ex ∈ daily_exercises pool sel, ex ∈ pool := by
  obtain ⟨-, -, hrange⟩ := hs
  intro ex hex
  obtain ⟨i, hi, rfl⟩ := List.mem_map.1 hex
  have hilt := hrange i hi
  rw [List.getD_eq_getElem pool "" hilt]
  exact List.getElem_mem hilt

/-- C1 counterexample.  The intermediate/no-equipment pool holds the name
"Mountain climbers" at positions 4 and 9 (once from the beginner tier,
once from the intermediate tier, no deduplication), so a legitimate
without-replacement draw of 5 positions can list the same exercise name
twice in one day. -/
theorem day_selection_duplicate_names_example :
    IsSample (exercise_pool false "intermediate" "no equipment") [4, 9, 0, 1, 2] ∧
    daily_exercises (exercise_pool false "intermediate" "no equipment") [4, 9, 0, 1, 2] =
      ["Mountain climbers", "Mountain climbers", "Bodyweight squats", "Push-ups", "Walking lunges"] ∧
    ¬ (daily_exercises (exercise_pool false "intermediate" "no equipment") [4, 9, 0, 1, 2]).Nodup := by
  decide

/-- C1 (amended).  Each day's draw is made at `min(5, pool size)`
pairwise-distinct pool positions (sampling without replacement), and the
drawn names are pairwise distinct whenever the pool itself carries no
duplicate name — which holds whenever body-weight mode is on, the tier is
beginner, or the equipment is the full gym. -/
theorem day_selection_without_replacement :
    (∀ (pool : List String) (sel : List Nat), IsSample pool sel →
      sel.Nodup ∧ (pool.Nodup → (daily_exercises pool sel).Nodup)) ∧
    (∀ b : Bool, ∀ fl ∈ exercise_levels, ∀ e ∈ equipment_options,
      (b = true ∨ fl = "beginner" ∨ e = "full gym") → (exercise_pool b fl e).Nodup) := by
  constructor
  · rintro pool sel ⟨hlen, hnd, hrange⟩
    refine ⟨hnd, fun hp => ?_⟩
    apply List.Nodup.map_on ?_ hnd
    intro x hx y hy hxy
    have hxl := hrange x hx
    have hyl := hrange y hy
    rw [List.getD_eq_getElem pool "" hxl, List.getD_eq_getElem pool "" hyl] at hxy
    exact (List.Nodup.getElem_inj_iff hp).1 hxy
  · decide

theorem day_selection_without_replacement_witness :
    IsSample (exercise_pool false "beginner" "no equipment") [0, 1, 2, 3, 4] ∧
    (daily_exercises (exercise_pool false "beginner" "no equipment") [0, 1, 2, 3, 4]).Nodup :=
  ⟨by decide, (day_selection_without_replacement.1 _ [0, 1, 2, 3, 4] (by decide)).2 (by decide)⟩

/-- C2.  The exercise pool equals the spec's cumulative concatenation of
catalog tiers from beginner up to the requested tier, each lower tier's
pool is a prefix of the next tier's pool, and pool size is monotonically
non-decreasing in tier. -/
theorem pool_is_cumulative_concatenation :
    ∀ (b : Bool), ∀ e ∈ equipment_options,
      (∀ fl ∈ exercise_levels, exercise_pool b fl e = pool_spec b fl e) ∧
      exercise_pool b "beginner" e <+: exercise_pool b "intermediate" e ∧
      exercise_pool b "intermediate" e <+: exercise_pool b "advanced" e ∧
      (exercise_pool b "beginner" e).length ≤ (exercise_pool b "intermediate" e).length ∧
      (exercise_pool b "intermediate" e).length ≤ (exercise_pool b "advanced" e).length := by
  decide

theorem pool_is_cumulative_concatenation_witness :
    exercise_pool false "intermediate" "no equipment" = pool_spec false "intermediate" "no equipment" ∧
    exercise_pool false "beginner" "no equipment" <+: exercise_pool false "intermediate" "no equipment" :=
  ⟨(pool_is_cumulative_concatenation false "no equipment" (by decide)).1 "intermediate" (by decide),
   (pool_is_cumulative_concatenation false "no equipment" (by decide)).2.1⟩

/-- C3.  An exercise line is annotated "3 sets of 10-15 reps" exactly when
the lower-cased goal contains the substring "weight" or "muscle", and
"3 sets of 30-60 seconds" exactly otherwise; the chunk factors through
`reps_for goal`, so the decision depends only on the goal string, never on
the exercise identity or the day. -/
theorem rep_annotation_policy :
    ∀ (goal exercise : String),
      (reps_for goal = "10-15 reps" ↔
        ("weight".data <:+: (str_lower goal).data ∨ "muscle".data <:+: (str_lower goal).data)) ∧
      (reps_for goal = "30-60 seconds" ↔
        ¬ ("weight".data <:+: (str_lower goal).data ∨ "muscle".data <:+: (str_lower goal).data)) ∧
      exercise_chunk goal exercise = "- " ++ exercise ++ ": 3 sets of " ++ reps_for goal ++ "\n" := by
  intro goal exercise
  have hc : (strContains (str_lower goal) "weight" || strContains (str_lower goal) "muscle") = true ↔
      ("weight".data <:+: (str_lower goal).data ∨ "muscle".data <:+: (str_lower goal).data) := by
    unfold strContains
    simp
  rcases Bool.eq_false_or_eq_true (strContains (str_lower goal) "weight" || strContains (str_lower goal) "muscle") with hb | hb
  · have hrep : reps_for goal = "10-15 reps" := by
      unfold reps_for
      rw [if_pos hb]
    have hH := hc.mp hb
    refine ⟨iff_of_true hrep hH, iff_of_false ?_ (not_not_intro hH), rfl⟩
    rw [hrep]
    decide
  · have hrep : reps_for goal = "30-60 seconds" := by
      unfold reps_for
      rw [if_neg (by simp [hb])]
    have hH : ¬ ("weight".data <:+: (str_lower goal).data ∨ "muscle".data <:+: (str_lower goal).data) := by
      rw [← hc]
      simp [hb]
    refine ⟨iff_of_false ?_ hH, iff_of_true hrep hH, rfl⟩
    rw [hrep]
    decide

/-- C4.  Validation is fail-fast in the order fitness level, day count,
equipment: the first failing check alone fixes the result, which is then
exactly the corresponding fixed message (the three messages are pairwise
distinct); inputs passing all three checks yield the rendered plan. -/
theorem validation_fail_fast :
    ∀ (fl goal : String) (d : Int) (e : String) (b : Bool) (dur : Option Int)
      (sample : Nat → List Nat),
      (fl ∉ exercise_levels →
        create_workout_plan fl goal d e b dur sample = invalid_fitness_msg) ∧
      (fl ∈ exercise_levels → (d < 1 ∨ d > 7) →
        create_workout_plan fl goal d e b dur sample = invalid_days_msg) ∧
      (fl ∈ exercise_levels → 1 ≤ d → d ≤ 7 → e ∉ equipment_options →
        create_workout_plan fl goal d e b dur sample = invalid_equipment_msg) ∧
      (fl ∈ exercise_levels → 1 ≤ d → d ≤ 7 → e ∈ equipment_options →
        create_workout_plan fl goal d e b dur sample =
          render_chunks (plan_chunks fl goal d e b dur sample)) ∧
      (invalid_fitness_msg ≠ invalid_days_msg ∧ invalid_fitness_msg ≠ invalid_equipment_msg ∧
        invalid_days_msg ≠ invalid_equipment_msg) := by
  intro fl goal d e b dur sample
  refine ⟨?_, ?_, ?_, ?_, by decide⟩
  · intro h
    unfold create_workout_plan
    rw [if_pos h]
  · intro h1 h2
    unfold create_workout_plan
    rw [if_neg (not_not_intro h1), if_pos h2]
  · intro h1 h2 h3 h4
    unfold create_workout_plan
    rw [if_neg (not_not_intro h1), if_neg (by omega), if_pos h4]
  · intro h1 h2 h3 h4
    unfold create_workout_plan
    rw [if_neg (not_not_intro h1), if_neg (by omega), if_neg (not_not_intro h4)]

theorem validation_fail_fast_witness :
    create_workout_plan "expert" "weight loss" 0 "home gym" false none (fun _ => []) =
      invalid_fitness_msg ∧
    create_workout_plan "beginner" "weight loss" 0 "home gym" false none (fun _ => []) =
      invalid_days_msg ∧
    create_workout_plan "beginner" "weight loss" 3 "home gym" false none (fun _ => []) =
      invalid_equipment_msg ∧
    create_workout_plan "beginner" "weight loss" 3 "no equipment" false none (fun _ => []) =
      render_chunks (plan_chunks "beginner" "weight loss" 3 "no equipment" false none (fun _ => [])) :=
  ⟨(validation_fail_fast "expert" "weight loss" 0 "home gym" false none (fun _ => [])).1 (by decide),
   (validation_fail_fast "beginner" "weight loss" 0 "home gym" false none (fun _ => [])).2.1
     (by decide) (by decide),
   (validation_fail_fast "beginner" "weight loss" 3 "home gym" false none (fun _ => [])).2.2.1
     (by decide) (by decide) (by decide) (by decide),
   (validation_fail_fast "beginner" "weight loss" 3 "no equipment" false none (fun _ => [])).2.2.2.1
     (by decide) (by decide) (by decide) (by decide)⟩

/-- C5.  For a valid request the plan's day-header chunks are exactly
those of days 1..days_per_week, so the plan contains exactly
days_per_week day sections, and each day lists exactly
`min(5, pool size)` exercises. -/
theorem plan_day_and_exercise_counts :
    ∀ (fl goal : String) (d : Int) (e : String) (b : Bool) (dur : Option Int)
      (sample : Nat → List Nat),
      e ∈ equipment_options → 1 ≤ d → d ≤ 7 →
      (∀ day ∈ days_list d, IsSample (exercise_pool b fl e) (sample day)) →
      (plan_chunks fl goal d e b dur sample).filter chunk_is_day_header =
        (days_list d).map day_header_chunk ∧
      ((plan_chunks fl goal d e b dur sample).filter chunk_is_day_header).length = d.toNat ∧
      ((d.toNat : Int) = d) ∧
      ∀ day ∈ days_list d,
        (daily_exercises (exercise_pool b fl e) (sample day)).length =
          min 5 (exercise_pool b fl e).length := by
  intro fl goal d e b dur sample he hd1 hd7 hsamp
  have hf := filter_day_header_plan fl goal d e b dur sample he
  refine ⟨hf, ?_, Int.toNat_of_nonneg (by omega), ?_⟩
  · rw [hf, List.length_map]
    unfold days_list
    rw [List.length_map, List.length_range]
  · intro day hday
    obtain ⟨hlen, -, -⟩ := hsamp day hday
    unfold daily_exercises
    rw [List.length_map, hlen]

theorem plan_day_and_exercise_counts_witness :
    ((plan_chunks "beginner" "cardio" 3 "no equipment" false none
      (fun _ => [0, 1, 2, 3, 4])).filter chunk_is_day_header).length = (3 : Int).toNat :=
  (plan_day_and_exercise_counts "beginner" "cardio" 3 "no equipment" false none
    (fun _ => [0, 1, 2, 3, 4]) (by decide) (by decide) (by decide) (by decide)).2.1

/-- C6.  With a positive duration supplied, the plan's final chunk is the
single advisory line naming that duration (and it is the only advisory
chunk); with duration omitted, no chunk of the plan is an advisory
line. -/
theorem duration_advisory_line :
    ∀ (fl goal : String) (d : Int) (e : String) (b : Bool) (sample : Nat → List Nat),
      e ∈ equipment_options →
      (∀ dm : Int, 0 < dm →
        (plan_chunks fl goal d e b (some dm) sample).getLast? = some (advisory_chunk dm) ∧
        (plan_chunks fl goal d e b (some dm) sample).countP chunk_is_advisory = 1) ∧
      (plan_chunks fl goal d e b none sample).countP chunk_is_advisory = 0 := by
  intro fl goal d e b sample he
  have hpre0 := countP_advisory_before_duration fl goal d e b sample he
  constructor
  · intro dm hdm
    have hd0 : duration_chunks (some dm) = [advisory_chunk dm] := by
      simp only [duration_chunks]
      rw [if_neg (by omega)]
    constructor
    · unfold plan_chunks
      rw [hd0]
      exact List.getLast?_concat _
    · unfold plan_chunks
      rw [hd0, List.countP_append, hpre0]
      simp [List.countP_cons, chunk_is_advisory_eq_true dm]
  · unfold plan_chunks
    rw [show duration_chunks none = [] from rfl, List.append_nil]
    exact hpre0

theorem duration_advisory_line_witness :
    (plan_chunks "beginner" "endurance" 2 "full gym" false (some 45)
      (fun _ => [0, 1, 2, 3, 4])).getLast? = some (advisory_chunk 45) ∧
    (plan_chunks "beginner" "endurance" 2 "full gym" false none
      (fun _ => [0, 1, 2, 3, 4])).countP chunk_is_advisory = 0 :=
  ⟨((duration_advisory_line "beginner" "endurance" 2 "full gym" false
      (fun _ => [0, 1, 2, 3, 4]) (by decide)).1 45 (by decide)).1,
   (duration_advisory_line "beginner" "endurance" 2 "full gym" false
      (fun _ => [0, 1, 2, 3, 4]) (by decide)).2⟩

/-- C7.  For the request beginner / "weight loss" / 3 days / no equipment /
not body-weight-only, the output is the rendered plan with exactly the day
sections 1, 2, 3; every drawn exercise belongs to the beginner
no-equipment catalog cell; every exercise line carries the "10-15 reps"
annotation; and every day section ends with the fixed cool-down line. -/
theorem example_beginner_weight_loss_plan :
    ∀ (sample : Nat → List Nat),
      (∀ day ∈ days_list 3, IsSample (exercise_pool false "beginner" "no equipment") (sample day)) →
      create_workout_plan "beginner" "weight loss" 3 "no equipment" false none sample =
        render_chunks (plan_chunks "beginner" "weight loss" 3 "no equipment" false none sample) ∧
      (plan_chunks "beginner" "weight loss" 3 "no equipment" false none sample).filter
        chunk_is_day_header = [day_header_chunk 1, day_header_chunk 2, day_header_chunk 3] ∧
      (∀ day ∈ days_list 3,
        ∀ ex ∈ daily_exercises (exercise_pool false "beginner" "no equipment") (sample day),
          ex ∈ exercises "beginner" "no equipment") ∧
      reps_for "weight loss" = "10-15 reps" ∧
      (∀ ex : String, exercise_chunk "weight loss" ex = "- " ++ ex ++ ": 3 sets of 10-15 reps\n") ∧
      (∀ day ∈ days_list 3,
        (day_chunks "weight loss" (exercise_pool false "beginner" "no equipment") (sample day)
          day).getLast? = some cool_down_chunk) := by
  intro sample hs
  refine ⟨?_, ?_, ?_, by decide, fun ex => exercise_chunk_eq_reps "weight loss" ex (by decide),
    fun day _ => day_chunks_getLast _ _ _ _⟩
  · unfold create_workout_plan
    rw [if_neg (by decide), if_neg (by decide), if_neg (by decide)]
  · rw [filter_day_header_plan _ _ _ _ _ _ _ (by decide)]
    rfl
  · intro day hday ex hex
    exact mem_pool_of_mem_daily (hs day hday) ex hex

theorem example_beginner_weight_loss_plan_witness :
    (plan_chunks "beginner" "weight loss" 3 "no equipment" false none
      (fun _ => [0, 1, 2, 3, 4])).filter chunk_is_day_header =
      [day_header_chunk 1, day_header_chunk 2, day_header_chunk 3] :=
  (example_beginner_weight_loss_plan (fun _ => [0, 1, 2, 3, 4]) (by decide)).2.1

/-- C8 counterexample.  The advanced body-weight pool concatenates three
7-entry tiers, so it has 21 entries, exceeding the claimed bound of 17. -/
theorem pool_size_exceeds_17 :
    "advanced" ∈ exercise_levels ∧ "no equipment" ∈ equipment_options ∧
    (exercise_pool true "advanced" "no equipment").length = 21 ∧
    ¬ (exercise_pool true "advanced" "no equipment").length ≤ 17 := by
  decide

/-- C8 (amended).  Every valid pool has at most 21 entries; the
equipment-based pools never exceed 15, and only body-weight pools can
exceed that, up to 21. -/
theorem pool_size_at_most_21 :
    ∀ (b : Bool), ∀ fl ∈ exercise_levels, ∀ e ∈ equipment_options,
      (exercise_pool b fl e).length ≤ 21 ∧ (exercise_pool false fl e).length ≤ 15 := by
  decide

theorem pool_size_at_most_21_witness :
    (exercise_pool true "advanced" "no equipment").length ≤ 21 :=
  (pool_size_at_most_21 true "advanced" (by decide) "no equipment" (by decide)).1

/-- C9.  Equipment is validated even in body-weight-only mode: with a
valid fitness level and day count but unrecognized equipment, the result
is the invalid-equipment message although equipment plays no role in
body-weight pool construction. -/
theorem equipment_validated_when_body_weight_only :
    ∀ (fl goal : String) (d : Int) (dur : Option Int) (sample : Nat → List Nat) (e : String),
      fl ∈ exercise_levels → 1 ≤ d → d ≤ 7 → e ∉ equipment_options →
      create_workout_plan fl goal d e true dur sample = invalid_equipment_msg := by
  intro fl goal d dur sample e h1 h2 h3 h4
  unfold create_workout_plan
  rw [if_neg (not_not_intro h1), if_neg (by omega), if_pos h4]

theorem equipment_validated_when_body_weight_only_witness :
    create_workout_plan "beginner" "endurance" 3 "home gym" true none (fun _ => []) =
      invalid_equipment_msg :=
  equipment_validated_when_body_weight_only "beginner" "endurance" 3 none (fun _ => [])
    "home gym" (by decide) (by decide) (by decide) (by decide)

/-- C10.  Every equipment catalog cell holds exactly 5 names and every
body-weight tier exactly 7, so every valid pool has at least 5 entries,
`min(5, pool size)` is always 5, and every rendered day lists exactly 5
exercises. -/
theorem pool_min_five_and_daily_count :
    ∀ (b : Bool), ∀ fl ∈ exercise_levels, ∀ e ∈ equipment_options,
      (exercises fl e).length = 5 ∧ (body_weight_exercises fl).length = 7 ∧
      5 ≤ (exercise_pool b fl e).length ∧ min 5 (exercise_pool b fl e).length = 5 ∧
      ∀ sel : List Nat, IsSample (exercise_pool b fl e) sel →
        (daily_exercises (exercise_pool b fl e) sel).length = 5 := by
  have key : ∀ (b : Bool), ∀ fl ∈ exercise_levels, ∀ e ∈ equipment_options,
      (exercises fl e).length = 5 ∧ (body_weight_exercises fl).length = 7 ∧
      5 ≤ (exercise_pool b fl e).length ∧ min 5 (exercise_pool b fl e).length = 5 := by decide
  intro b fl hfl e he
  obtain ⟨k1, k2, k3, k4⟩ := key b fl hfl e he
  refine ⟨k1, k2, k3, k4, ?_⟩
  rintro sel ⟨hlen, -, -⟩
  unfold daily_exercises
  rw [List.length_map, hlen, k4]

theorem pool_min_five_and_daily_count_witness :
    (daily_exercises (exercise_pool false "beginner" "full gym") [0, 1, 2, 3, 4]).length = 5 :=
  (pool_min_five_and_daily_count false "beginner" (by decide) "full gym"
    (by decide)).2.2.2.2 [0, 1, 2, 3, 4] (by decide)

end WorkoutPlanner
